import Mathlib

/-!
Shallow embedding of the multi-tenant periodic broadcast scheduler of the
Sendistics repository (src/app/auto_sender.py, src/app/storage.py,
src/app/user_sender.py), together with proofs about the behaviours the
specification ascribes to it.

Conventions of the embedding:
* chat/destination identifiers are `Int` (Telegram chat ids are signed);
* database NULL is `Option`; Python falsiness of a nullable string is
  `strFalsy`;
* the asyncio registry (`AutoSender._tasks` / `AutoSender._stop_events`)
  is a pair of functional maps `Int → Option _`; each scheduler operation
  is modelled as an atomic transition, which is faithful because every
  check-then-act sequence on the registry runs under `self._lock` and
  `await task` returns only after the task body (including its `finally`
  block) has completed;
* fallible store / network operations are `Except String _`; the Python
  `try/except` structure is mirrored exactly: only the handlers that the
  source contains appear in the embedding.
-/

namespace Sendistics

/-- Python truthiness test for a nullable string column
(`not message` is true for both `None` and `""`). -/
def strFalsy : Option String → Bool
  | none => true
  | some s => s.isEmpty

/-- Row of the `auto_stats` table as returned by `Storage._get_auto_locked`. -/
structure AutoStats where
  sent_total : Int
  last_sent_at : Option String
  last_error : Option String
  deriving Repr, DecidableEq

/-- Campaign snapshot as returned by `Storage.get_auto`:
`auto_config` row plus the ordered list of `auto_targets` rows. -/
structure AutoConfig where
  message : Option String
  interval_minutes : Int
  target_chat_ids : List Int
  is_enabled : Bool
  deriving Repr, DecidableEq

/-- Model of `Storage.update_stats`: read the current `sent_total`, add this cycle's
`sent`, stamp `last_sent_at` with the current time, and set `last_error` to
the newline-joined error list, or NULL when the list is empty. -/
def update_stats (stats : AutoStats) (sent : Nat) (errors : List String)
    (now : String) : AutoStats :=
  { sent_total := stats.sent_total + (sent : Int)
    last_sent_at := some now
    last_error := if errors.isEmpty then none else some (String.intercalate "\n" errors) }

/-- Model of `Storage.toggle_target_chat` acting on the `auto_targets`
table, with `known` the set of chat ids present in `known_chats`: if the
chat id is in `auto_targets`, delete it and return `false`; otherwise
`INSERT INTO auto_targets` and return `true` — but `auto_targets.chat_id`
is a foreign key into `known_chats` and `_init_db` runs
`PRAGMA foreign_keys = ON`, so for a chat id absent from `known_chats` the
insert raises `IntegrityError` (`ON CONFLICT ... DO NOTHING` suppresses
only uniqueness conflicts, and the optional title upsert into
`known_chats` runs after the insert, too late to satisfy the constraint;
on the success path that upsert only updates the title of a row that
already exists, leaving the `known` set unchanged). The result is the new
`auto_targets` set and the returned boolean, or the raised error. -/
def toggle_target_chat (known targets : Finset Int) (chat_id : Int) :
    Except String (Finset Int × Bool) :=
  if chat_id ∈ targets then Except.ok (targets.erase chat_id, false)
  else if chat_id ∈ known then Except.ok (insert chat_id targets, true)
  else Except.error "FOREIGN KEY constraint failed"

/-- A write performed on the store by the scheduler core: the
`set_auto_enabled` / `UPDATE auto_config SET is_enabled` writes, or the
`update_stats` write. -/
inductive StoreWrite where
  | setEnabled (value : Bool)
  | statsUpdate (sent : Nat) (errors : List String)
  deriving Repr, DecidableEq

/-- Model of `Storage.ensure_constraints`: disable the campaign when the
message is falsy, the target list is empty, or the interval is
non-positive. The result is the list of writes performed on
`auto_config`. -/
def ensure_constraints (auto : AutoConfig) : List StoreWrite :=
  if strFalsy auto.message ∨ auto.target_chat_ids = [] ∨ auto.interval_minutes ≤ 0 then
    [StoreWrite.setEnabled false]
  else []

/-- Effect of a store write on a campaign snapshot (used to model the
re-read `get_auto` performed by `AutoSender.refresh_user` after
`ensure_constraints`). -/
def applyWrite (auto : AutoConfig) : StoreWrite → AutoConfig
  | StoreWrite.setEnabled b => { auto with is_enabled := b }
  | StoreWrite.statsUpdate _ _ => auto

/-- Outcome of one delivery attempt, classifying the exceptions that
`AutoSender._run_user` catches per destination: `BotKicked`, `ChatNotFound`
and `Unauthorized` are the unreachable class, every other exception the
transport-error class. -/
inductive DeliverOutcome where
  | success
  | unreachable (reason : String)
  | transportError (reason : String)
  deriving Repr, DecidableEq

/-- Error entry appended by `AutoSender._run_user` for one destination,
`none` on success (the strings mirror the Russian source messages). -/
def deliverError (chat_id : Int) : DeliverOutcome → Option String
  | DeliverOutcome.success => none
  | DeliverOutcome.unreachable reason =>
      some ("Недоступен чат " ++ toString chat_id ++ ": " ++ reason)
  | DeliverOutcome.transportError reason =>
      some ("Ошибка доставки в чат " ++ toString chat_id ++ ": " ++ reason)

/-- One iteration of the fan-out loop of `AutoSender._run_user`: attempt
delivery to `chat_id`; on success increment the counter, otherwise append
the destination's error entry. The first accumulator component records the
destinations attempted, in attempt order. -/
def fanoutStep (deliver : Int → DeliverOutcome) (acc : List Int × Nat × List String)
    (chat_id : Int) : List Int × Nat × List String :=
  match deliverError chat_id (deliver chat_id) with
  | none => (acc.1 ++ [chat_id], acc.2.1 + 1, acc.2.2)
  | some e => (acc.1 ++ [chat_id], acc.2.1, acc.2.2 ++ [e])

/-- Delivery fan-out loop of `AutoSender._run_user`: iterate over the
resolved targets in order, starting from `success = 0` and `errors = []`. -/
def fanout (deliver : Int → DeliverOutcome) (targets : List Int) :
    List Int × Nat × List String :=
  targets.foldl (fanoutStep deliver) ([], 0, [])

/-- Model of `AutoSender._resolve_targets`: with a user-session sender, a non-empty
configured list is filtered against the reachable personal chats and an
empty configured list defaults to all personal chats; without a
user-session sender the configured list is returned unchanged. -/
def resolve_targets (hasUserSender : Bool) (personalChats : List Int)
    (configured : List Int) : List Int :=
  if hasUserSender then
    if configured ≠ [] then configured.filter (fun c => personalChats.contains c)
    else personalChats
  else configured

/-- How one pass of the `while True` body of `AutoSender._run_user` ends:
the three `break` guards, or a completed fan-out followed by the
interval wait (`stopRequested` records whether the stop event fires during
or before that wait, which makes `asyncio.wait_for` return and the loop
`break`). -/
inductive CycleExit where
  | notEnabled
  | paymentFailed
  | configInvalid
  | ranAndWait (success : Nat) (errors : List String) (stopRequested : Bool)
  deriving Repr, DecidableEq

/-- Whether the cycle's exit makes the `while True` loop terminate. -/
def exitsLoop : CycleExit → Bool
  | CycleExit.notEnabled => true
  | CycleExit.paymentFailed => true
  | CycleExit.configInvalid => true
  | CycleExit.ranAndWait _ _ stopRequested => stopRequested

/-- Environment of one cycle: the results of the awaited store and sender
calls. Each store call is fallible (`Except`), reflecting that the Python
source awaits them with no exception handler around the cycle body. -/
structure CycleOps where
  get_auto : Except String AutoConfig
  payUser : Except String Bool
  payGlobal : Except String Bool
  resolveTargets : Except String (List Int)
  persistStats : Except String Unit
  deliver : Int → DeliverOutcome
  stopSet : Bool

/-- One pass of the `while True` body of `AutoSender._run_user`.
Returns the store writes performed, the destinations attempted, and how the
pass ended; an `Except.error` is an exception that escapes the pass,
exactly as in the source, whose only handlers are the per-destination
`except` clauses inside the fan-out (modelled by `DeliverOutcome`) — there
is no handler at the cycle boundary, only a `finally` outside the loop. -/
def run_user_cycle_exc (ops : CycleOps) :
    Except String (List StoreWrite × List Int × CycleExit) := do
  let auto ← ops.get_auto
  if ¬ auto.is_enabled then
    return ([], [], CycleExit.notEnabled)
  let pu ← ops.payUser
  let pg ← ops.payGlobal
  if ¬ (pu ∧ pg) then
    return ([StoreWrite.setEnabled false], [], CycleExit.paymentFailed)
  let targets ← ops.resolveTargets
  if strFalsy auto.message ∨ targets = [] ∨ auto.interval_minutes ≤ 0 then
    return ([StoreWrite.setEnabled false], [], CycleExit.configInvalid)
  let r := fanout ops.deliver targets
  let _ ← ops.persistStats
  return ([StoreWrite.statsUpdate r.2.1 r.2.2], r.1,
    CycleExit.ranAndWait r.2.1 r.2.2 ops.stopSet)

/-- Cycle environment in which every store call succeeds, built from a
campaign snapshot, the two payment-recency answers, the deployment mode and
the reachable personal chats. -/
def pureOps (auto : AutoConfig) (payUser payGlobal : Bool) (hasUserSender : Bool)
    (personalChats : List Int) (deliver : Int → DeliverOutcome) (stopSet : Bool) :
    CycleOps :=
  { get_auto := Except.ok auto
    payUser := Except.ok payUser
    payGlobal := Except.ok payGlobal
    resolveTargets := Except.ok (resolve_targets hasUserSender personalChats auto.target_chat_ids)
    persistStats := Except.ok ()
    deliver := deliver
    stopSet := stopSet }

/-- Result of running the `while True` loop of `AutoSender._run_user` with
bounded fuel: either the loop terminated after the given cycle, an
exception escaped, or the fuel ran out. -/
inductive LoopResult where
  | exited (cycle : Nat) (exit : CycleExit)
  | escaped (cycle : Nat) (msg : String)
  | fuelOut
  deriving Repr, DecidableEq

/-- The `while True` loop of `AutoSender._run_user`: run cycles (the
environment of the k-th cycle is `env k`) until one of them breaks. -/
def run_user_loop (env : Nat → CycleOps) : Nat → Nat → LoopResult
  | 0, _ => LoopResult.fuelOut
  | fuel + 1, k =>
    match run_user_cycle_exc (env k) with
    | Except.error msg => LoopResult.escaped k msg
    | Except.ok (_, _, e) =>
      if exitsLoop e then LoopResult.exited k e
      else run_user_loop env fuel (k + 1)

/-- An entry of `AutoSender._tasks`: the asyncio task handle created by
`_start_task_for_user`, remembering the identity of the stop event it was
created with (the `finally` block compares that identity). -/
structure TaskH where
  id : Nat
  eventId : Nat
  done : Bool
  deriving Repr, DecidableEq

/-- An entry of `AutoSender._stop_events`: an `asyncio.Event` with an
identity and its set flag. -/
structure EventH where
  id : Nat
  isSet : Bool
  deriving Repr, DecidableEq

/-- The per-tenant registry owned by one `AutoSender` instance: the
`_tasks` and `_stop_events` dictionaries, as maps from tenant id. Every
check-then-act sequence on it runs under `self._lock`, so each operation
below is one atomic transition. -/
structure Registry where
  tasks : Int → Option TaskH
  stopEvents : Int → Option EventH

/-- A tenant has a live loop when a not-yet-finished task is registered
(`current and not current.done()`). -/
def live (r : Registry) (u : Int) : Bool :=
  match r.tasks u with
  | some t => !t.done
  | none => false

/-- Model of `AutoSender._start_task_for_user`: under the lock, return without
doing anything when a live task is registered; otherwise create a fresh
stop event and a fresh task and record both. `taskId` / `eventId` name the
fresh objects. -/
def start_task_for_user (r : Registry) (u : Int) (taskId eventId : Nat) : Registry :=
  match r.tasks u with
  | some current =>
    if ¬ current.done then r
    else
      { tasks := Function.update r.tasks u (some ⟨taskId, eventId, false⟩)
        stopEvents := Function.update r.stopEvents u (some ⟨eventId, false⟩) }
  | none =>
    { tasks := Function.update r.tasks u (some ⟨taskId, eventId, false⟩)
      stopEvents := Function.update r.stopEvents u (some ⟨eventId, false⟩) }

/-- The `finally` block of `AutoSender._run_user`, run when the task whose
stop event has identity `eventId` completes: pop the task entry, and pop
the stop-event entry only when it is still the task's own event. -/
def task_finally (r : Registry) (u : Int) (eventId : Nat) : Registry :=
  { tasks := Function.update r.tasks u none
    stopEvents :=
      match r.stopEvents u with
      | some e => if e.id = eventId then Function.update r.stopEvents u none else r.stopEvents
      | none => r.stopEvents }

/-- Model of `AutoSender.stop_user`: under the lock, set the tenant's stop event (if
any) and read the task handle; then, outside the lock, await the task.
Awaiting is modelled as running the task to completion: the set stop event
makes the interval wait return immediately so the loop breaks at its next
suspension point, after which the task's `finally` block runs. `stop_user`
returns only after that, so the post-state already reflects the
`finally`. -/
def stop_user (r : Registry) (u : Int) : Registry :=
  let r1 : Registry :=
    match r.stopEvents u with
    | some e => { r with stopEvents := Function.update r.stopEvents u (some ⟨e.id, true⟩) }
    | none => r
  match r1.tasks u with
  | some t => task_finally r1 u t.eventId
  | none => r1

/-- Consistency of the registry at one tenant, as maintained by the code:
a task entry and a stop-event entry exist together and the event is the
one the task was created with (`_start_task_for_user` writes both under
the lock, the `finally` removes both). -/
def registry_consistent (r : Registry) (u : Int) : Prop :=
  match r.tasks u, r.stopEvents u with
  | some t, some e => t.eventId = e.id
  | none, none => True
  | _, _ => False

/-- What the scheduler does to the loop registry after its store work. -/
inductive RefreshAction where
  | stopOnly
  | stopThenStart
  deriving Repr, DecidableEq

/-- Model of `AutoSender.refresh_user`: store-side decision logic. Returns the
writes performed on `auto_config` and whether the tenant's loop is stopped
only, or stopped and then freshly started. The snapshot re-read after
`ensure_constraints` is modelled by applying the constraint writes to the
first snapshot. -/
def refresh_user (auto : AutoConfig) (payUser payGlobal : Bool) :
    List StoreWrite × RefreshAction :=
  if ¬ auto.is_enabled then ([], RefreshAction.stopOnly)
  else if ¬ (payUser ∧ payGlobal) then
    ([StoreWrite.setEnabled false], RefreshAction.stopOnly)
  else
    let cw := ensure_constraints auto
    let auto2 := cw.foldl applyWrite auto
    if ¬ auto2.is_enabled then (cw, RefreshAction.stopOnly)
    else (cw, RefreshAction.stopThenStart)

/-- One run of the task body of `AutoSender._run_user` in the fallible
model: `try:` the loop body `finally:` the registry cleanup. The cleanup
runs whether the body returned or an exception escaped it. -/
def run_user_task_exc (ops : CycleOps) (r : Registry) (u : Int) (eventId : Nat) :
    Registry × Except String Unit :=
  (task_finally r u eventId, (run_user_cycle_exc ops).map (fun _ => ()))

/-- Outcome of one invocation of the wrapped coroutine inside
`UserSender._run_with_reconnect`: success, a `ConnectionError` (the only
exception the retry loop catches), or any other exception. -/
inductive AttemptOutcome where
  | ok
  | connError (msg : String)
  | otherError (msg : String)
  deriving Repr, DecidableEq

/-- Result of `UserSender._run_with_reconnect`. -/
inductive RunResult where
  | success
  | raisedRuntime (msg : String)
  | raised (msg : String)
  deriving Repr, DecidableEq

/-- Retry loop of `UserSender._run_with_reconnect` over the remaining
attempt numbers, threading `last_exc` and counting how many times the
wrapped coroutine has been invoked: on `ConnectionError` at the last
attempt the loop breaks and a `RuntimeError` wrapping the exception is
raised; any other exception propagates immediately. -/
def reconnectGo (f : Nat → AttemptOutcome) : Option String → Nat → List Nat → Nat × RunResult
  | lastExc, invoked, [] =>
    (invoked, RunResult.raisedRuntime (lastExc.getD "неизвестная ошибка"))
  | _lastExc, invoked, a :: rest =>
    match f a with
    | AttemptOutcome.ok => (invoked + 1, RunResult.success)
    | AttemptOutcome.otherError msg => (invoked + 1, RunResult.raised msg)
    | AttemptOutcome.connError msg =>
      if rest.isEmpty then (invoked + 1, RunResult.raisedRuntime msg)
      else reconnectGo f (some msg) (invoked + 1) rest

/-- Model of `UserSender._run_with_reconnect` with the source's
`self._retry_attempts = 3`: `f k` is the outcome of the k-th invocation of
the wrapped coroutine; the first component of the result is how many times
the coroutine was invoked. -/
def run_with_reconnect (f : Nat → AttemptOutcome) : Nat × RunResult :=
  reconnectGo f none 0 [1, 2, 3]

/-! ### Properties of the delivery fan-out -/

lemma deliverError_eq_none (chat_id : Int) (o : DeliverOutcome) :
    deliverError chat_id o = none ↔ o = DeliverOutcome.success := by
  cases o <;> simp [deliverError]

lemma fanout_foldl (deliver : Int → DeliverOutcome) (ts : List Int)
    (acc : List Int × Nat × List String) :
    ts.foldl (fanoutStep deliver) acc =
      (acc.1 ++ ts,
       acc.2.1 + ts.countP (fun c => (deliverError c (deliver c)).isNone),
       acc.2.2 ++ ts.filterMap (fun c => deliverError c (deliver c))) := by
  induction ts generalizing acc with
  | nil => simp
  | cons c ts ih =>
    rcases h : deliverError c (deliver c) with _ | e
    · simp [List.foldl_cons, ih, fanoutStep, h, List.countP_cons,
        List.filterMap_cons, Nat.add_comm, Nat.add_assoc, Nat.add_left_comm]
    · simp [List.foldl_cons, ih, fanoutStep, h, List.countP_cons,
        List.filterMap_cons]

lemma fanout_eq (deliver : Int → DeliverOutcome) (targets : List Int) :
    fanout deliver targets =
      (targets,
       targets.countP (fun c => (deliverError c (deliver c)).isNone),
       targets.filterMap (fun c => deliverError c (deliver c))) := by
  simp [fanout, fanout_foldl]

/-- C3: a cycle's fan-out attempts delivery to every resolved destination,
sequentially in list order and regardless of earlier outcomes (the attempt
trace is the whole target list); it counts one success per non-failing
destination and records exactly one error entry per failing destination,
in order; and for destinations `[A, B, C]` where only `B` fails, it yields
success count 2 and exactly one error entry, which is the entry generated
for `B` and names `B` in its text. -/
theorem claim_C3_fanout_isolation (deliver : Int → DeliverOutcome) (targets : List Int) :
    (fanout deliver targets).1 = targets ∧
    (fanout deliver targets).2.1 =
      (targets.filter (fun c => deliver c = DeliverOutcome.success)).length ∧
    (fanout deliver targets).2.2 =
      targets.filterMap (fun c => deliverError c (deliver c)) ∧
    (fanout deliver targets).2.2.length =
      (targets.filter (fun c => deliver c ≠ DeliverOutcome.success)).length ∧
    (∀ A B C : Int, deliver A = DeliverOutcome.success →
      deliver B ≠ DeliverOutcome.success → deliver C = DeliverOutcome.success →
      (fanout deliver [A, B, C]).2.1 = 2 ∧
      ∃ e, (fanout deliver [A, B, C]).2.2 = [e] ∧
        deliverError B (deliver B) = some e ∧
        ∃ reason, e = "Недоступен чат " ++ toString B ++ ": " ++ reason ∨
          e = "Ошибка доставки в чат " ++ toString B ++ ": " ++ reason) := by
  have hfm : ∀ (f : Int → Option String) (l : List Int),
      (l.filterMap f).length = l.countP (fun a => (f a).isSome) := by
    intro f l
    induction l with
    | nil => simp
    | cons a l ih =>
      rcases h : f a with _ | b <;> simp [List.filterMap_cons, h, List.countP_cons, ih]
  have hlen : (fanout deliver targets).2.2.length =
      (targets.filter (fun c => deliver c ≠ DeliverOutcome.success)).length := by
    rw [fanout_eq]
    rw [hfm, ← List.countP_eq_length_filter]
    apply List.countP_congr
    intro c _
    cases h : deliver c <;> simp [deliverError, h]
  refine ⟨by simp [fanout_eq], ?_, by simp [fanout_eq], hlen, ?_⟩
  · rw [fanout_eq]
    rw [← List.countP_eq_length_filter]
    apply List.countP_congr
    intro c _
    cases h : deliver c <;> simp [deliverError, h]
  · intro A B C hA hB hC
    rcases o : deliver B with _ | r | r
    · exact absurd o hB
    · refine ⟨by simp [fanout_eq, List.countP_cons, deliverError, hA, hB, hC, o], ?_⟩
      refine ⟨"Недоступен чат " ++ toString B ++ ": " ++ r, ?_, ?_, r, Or.inl rfl⟩
      · simp [fanout_eq, List.filterMap_cons, hA, hC, o, deliverError]
      · simp [o, deliverError]
    · refine ⟨by simp [fanout_eq, List.countP_cons, deliverError, hA, hB, hC, o], ?_⟩
      refine ⟨"Ошибка доставки в чат " ++ toString B ++ ": " ++ r, ?_, ?_, r, Or.inr rfl⟩
      · simp [fanout_eq, List.filterMap_cons, hA, hC, o, deliverError]
      · simp [o, deliverError]

/-- Witness for C3 at a concrete sender: destinations `[10, 20, 30]` where
only chat 20 is unreachable give success count 2 and one error entry. -/
theorem claim_C3_fanout_isolation_witness :
    (fanout (fun c => if c = 20 then DeliverOutcome.unreachable "kicked"
      else DeliverOutcome.success) [10, 20, 30]).2.1 = 2 ∧
    ∃ e, (fanout (fun c => if c = 20 then DeliverOutcome.unreachable "kicked"
      else DeliverOutcome.success) [10, 20, 30]).2.2 = [e] ∧
      deliverError 20 ((fun c : Int => if c = 20 then DeliverOutcome.unreachable "kicked"
        else DeliverOutcome.success) 20) = some e ∧
      ∃ reason, e = "Недоступен чат " ++ toString (20 : Int) ++ ": " ++ reason ∨
        e = "Ошибка доставки в чат " ++ toString (20 : Int) ++ ": " ++ reason :=
  (claim_C3_fanout_isolation
      (fun c => if c = 20 then DeliverOutcome.unreachable "kicked" else DeliverOutcome.success)
      [10, 20, 30]).2.2.2.2 10 20 30 (by simp) (by simp) (by simp)

/-- The writes a cycle performs on the store (empty when an exception
escapes the cycle at the modelled point, which is before any further
write). -/
def cycle_writes (ops : CycleOps) : List StoreWrite :=
  match run_user_cycle_exc ops with
  | Except.ok (w, _, _) => w
  | Except.error _ => []

/-- Whether a fallible computation returned normally. -/
def exceptOk {ε α : Type} : Except ε α → Bool
  | Except.ok _ => true
  | Except.error _ => false

/-- A write list never turns the enabled flag on. -/
def writesOnlyDisable (ws : List StoreWrite) : Bool :=
  ws.all fun w =>
    match w with
    | StoreWrite.setEnabled b => !b
    | StoreWrite.statsUpdate _ _ => true

/-! ### Evaluation lemmas for the cycle body -/

lemma cycle_eval_notEnabled (ops : CycleOps) (auto : AutoConfig)
    (h1 : ops.get_auto = Except.ok auto) (hen : auto.is_enabled = false) :
    run_user_cycle_exc ops = Except.ok ([], [], CycleExit.notEnabled) := by
  simp [run_user_cycle_exc, h1, hen, bind, Except.bind, pure, Except.pure]

lemma cycle_eval_paymentFailed (ops : CycleOps) (auto : AutoConfig) (pu pg : Bool)
    (h1 : ops.get_auto = Except.ok auto) (h2 : ops.payUser = Except.ok pu)
    (h3 : ops.payGlobal = Except.ok pg)
    (hen : auto.is_enabled = true) (hpay : ¬ (pu = true ∧ pg = true)) :
    run_user_cycle_exc ops =
      Except.ok ([StoreWrite.setEnabled false], [], CycleExit.paymentFailed) := by
  simp [run_user_cycle_exc, h1, h2, h3, hen, bind, Except.bind, pure, Except.pure]
  intro hpu hpg
  exact absurd ⟨hpu, hpg⟩ hpay

lemma cycle_eval_configInvalid (ops : CycleOps) (auto : AutoConfig) (tg : List Int)
    (h1 : ops.get_auto = Except.ok auto) (h2 : ops.payUser = Except.ok true)
    (h3 : ops.payGlobal = Except.ok true) (h4 : ops.resolveTargets = Except.ok tg)
    (hen : auto.is_enabled = true)
    (hcfg : strFalsy auto.message = true ∨ tg = [] ∨ auto.interval_minutes ≤ 0) :
    run_user_cycle_exc ops =
      Except.ok ([StoreWrite.setEnabled false], [], CycleExit.configInvalid) := by
  simp [run_user_cycle_exc, h1, h2, h3, h4, hen, bind, Except.bind, pure, Except.pure,
    if_pos hcfg]

lemma cycle_eval_ran (ops : CycleOps) (auto : AutoConfig) (tg : List Int)
    (h1 : ops.get_auto = Except.ok auto) (h2 : ops.payUser = Except.ok true)
    (h3 : ops.payGlobal = Except.ok true) (h4 : ops.resolveTargets = Except.ok tg)
    (h5 : ops.persistStats = Except.ok ())
    (hen : auto.is_enabled = true)
    (hcfg : ¬ (strFalsy auto.message = true ∨ tg = [] ∨ auto.interval_minutes ≤ 0)) :
    run_user_cycle_exc ops =
      Except.ok
        ([StoreWrite.statsUpdate (fanout ops.deliver tg).2.1 (fanout ops.deliver tg).2.2],
         (fanout ops.deliver tg).1,
         CycleExit.ranAndWait (fanout ops.deliver tg).2.1 (fanout ops.deliver tg).2.2
           ops.stopSet) := by
  simp [run_user_cycle_exc, h1, h2, h3, h4, h5, hen, bind, Except.bind, pure, Except.pure,
    if_neg hcfg]

lemma cycle_pure_notEnabled (auto : AutoConfig) (pu pg hasUS : Bool)
    (personal : List Int) (deliver : Int → DeliverOutcome) (stopSet : Bool)
    (hen : auto.is_enabled = false) :
    run_user_cycle_exc (pureOps auto pu pg hasUS personal deliver stopSet) =
      Except.ok ([], [], CycleExit.notEnabled) :=
  cycle_eval_notEnabled _ auto rfl hen

lemma cycle_pure_paymentFailed (auto : AutoConfig) (pu pg hasUS : Bool)
    (personal : List Int) (deliver : Int → DeliverOutcome) (stopSet : Bool)
    (hen : auto.is_enabled = true) (hpay : ¬ (pu = true ∧ pg = true)) :
    run_user_cycle_exc (pureOps auto pu pg hasUS personal deliver stopSet) =
      Except.ok ([StoreWrite.setEnabled false], [], CycleExit.paymentFailed) :=
  cycle_eval_paymentFailed _ auto pu pg rfl rfl rfl hen hpay

lemma cycle_pure_configInvalid (auto : AutoConfig) (pu pg hasUS : Bool)
    (personal : List Int) (deliver : Int → DeliverOutcome) (stopSet : Bool)
    (hen : auto.is_enabled = true) (hpu : pu = true) (hpg : pg = true)
    (hcfg : strFalsy auto.message = true ∨
      resolve_targets hasUS personal auto.target_chat_ids = [] ∨
      auto.interval_minutes ≤ 0) :
    run_user_cycle_exc (pureOps auto pu pg hasUS personal deliver stopSet) =
      Except.ok ([StoreWrite.setEnabled false], [], CycleExit.configInvalid) := by
  subst hpu
  subst hpg
  exact cycle_eval_configInvalid _ auto _ rfl rfl rfl rfl hen hcfg

lemma cycle_pure_ran (auto : AutoConfig) (pu pg hasUS : Bool)
    (personal : List Int) (deliver : Int → DeliverOutcome) (stopSet : Bool)
    (hen : auto.is_enabled = true) (hpu : pu = true) (hpg : pg = true)
    (hmsg : strFalsy auto.message = false)
    (htg : resolve_targets hasUS personal auto.target_chat_ids ≠ [])
    (hint : 0 < auto.interval_minutes) :
    run_user_cycle_exc (pureOps auto pu pg hasUS personal deliver stopSet) =
      Except.ok
        ([StoreWrite.statsUpdate
            (fanout deliver (resolve_targets hasUS personal auto.target_chat_ids)).2.1
            (fanout deliver (resolve_targets hasUS personal auto.target_chat_ids)).2.2],
         (fanout deliver (resolve_targets hasUS personal auto.target_chat_ids)).1,
         CycleExit.ranAndWait
            (fanout deliver (resolve_targets hasUS personal auto.target_chat_ids)).2.1
            (fanout deliver (resolve_targets hasUS personal auto.target_chat_ids)).2.2
            stopSet) := by
  subst hpu
  subst hpg
  have hcfg : ¬ (strFalsy auto.message = true ∨
      resolve_targets hasUS personal auto.target_chat_ids = [] ∨
      auto.interval_minutes ≤ 0) := by
    push_neg
    exact ⟨by simp [hmsg], htg, hint⟩
  exact cycle_eval_ran _ auto _ rfl rfl rfl rfl rfl hen hcfg

/-! ### Properties of the loop registry -/

/-- C1: `_start_task_for_user` is a no-op when a live, not-yet-finished
task is registered for the tenant; after a start the tenant has a live
loop; starting twice without an intervening stop equals starting once
(exactly one loop results, the registry being a per-tenant map holding at
most one handle); and a start for one tenant leaves every other tenant's
entry untouched. -/
theorem claim_C1_idempotent_start (r : Registry) (u : Int) (t1 e1 t2 e2 : Nat) :
    (live r u = true → start_task_for_user r u t1 e1 = r) ∧
    live (start_task_for_user r u t1 e1) u = true ∧
    start_task_for_user (start_task_for_user r u t1 e1) u t2 e2 =
      start_task_for_user r u t1 e1 ∧
    (∀ v, v ≠ u → (start_task_for_user r u t1 e1).tasks v = r.tasks v) := by
  cases ht : r.tasks u with
  | none =>
    refine ⟨fun hl => ?_, ?_, ?_, fun v hv => ?_⟩
    · simp [live, ht] at hl
    · simp [start_task_for_user, ht, live, Function.update_same]
    · simp [start_task_for_user, ht, Function.update_same]
    · simp [start_task_for_user, ht, Function.update_noteq hv]
  | some current =>
    by_cases hd : current.done
    · refine ⟨fun hl => ?_, ?_, ?_, fun v hv => ?_⟩
      · simp [live, ht, hd] at hl
      · simp [start_task_for_user, ht, hd, live, Function.update_same]
      · simp [start_task_for_user, ht, hd, Function.update_same]
      · simp [start_task_for_user, ht, hd, Function.update_noteq hv]
    · refine ⟨fun _ => ?_, ?_, ?_, fun v hv => ?_⟩
      · simp [start_task_for_user, ht, hd]
      · simp [start_task_for_user, ht, hd, live]
      · simp [start_task_for_user, ht, hd]
      · simp [start_task_for_user, ht, hd]

/-- Witness for C1 at a concrete registry: tenant 4 has a live task, so a
start is a no-op; starting twice for tenant 4 on an empty registry equals
starting once. -/
theorem claim_C1_idempotent_start_witness :
    start_task_for_user
      { tasks := Function.update (fun _ => none) 4 (some ⟨1, 2, false⟩)
        stopEvents := Function.update (fun _ => none) 4 (some ⟨2, false⟩) } 4 8 9 =
      { tasks := Function.update (fun _ => none) 4 (some ⟨1, 2, false⟩)
        stopEvents := Function.update (fun _ => none) 4 (some ⟨2, false⟩) } ∧
    start_task_for_user
      (start_task_for_user { tasks := fun _ => none, stopEvents := fun _ => none } 4 8 9)
      4 10 11 =
      start_task_for_user { tasks := fun _ => none, stopEvents := fun _ => none } 4 8 9 :=
  ⟨(claim_C1_idempotent_start _ 4 8 9 10 11).1 (by simp [live, Function.update_same]),
   (claim_C1_idempotent_start _ 4 8 9 10 11).2.2.1⟩

/-- C2: from a consistent registry state (the states the code reaches:
task and stop-event entries exist together and match), `stop_user` returns
only after the awaited task has run its `finally` block, so afterwards the
tenant's task and stop-event entries are both cleared and no live loop
remains; a start invoked immediately afterward therefore registers a fresh
task rather than no-op against a stale handle. -/
theorem claim_C2_stop_drains (r : Registry) (u : Int) (t2 e2 : Nat)
    (hc : registry_consistent r u) :
    (stop_user r u).tasks u = none ∧
    (stop_user r u).stopEvents u = none ∧
    live (stop_user r u) u = false ∧
    (start_task_for_user (stop_user r u) u t2 e2).tasks u = some ⟨t2, e2, false⟩ ∧
    live (start_task_for_user (stop_user r u) u t2 e2) u = true := by
  unfold registry_consistent at hc
  cases ht : r.tasks u with
  | none =>
    cases he : r.stopEvents u with
    | none =>
      have hstop : stop_user r u = r := by
        simp [stop_user, he, ht]
      refine ⟨by simp [hstop, ht], by simp [hstop, he], by simp [live, hstop, ht], ?_, ?_⟩
      · simp [hstop, start_task_for_user, ht, Function.update_same]
      · simp [hstop, start_task_for_user, ht, live, Function.update_same]
    | some e =>
      rw [ht, he] at hc
      exact absurd hc (by simp)
  | some t =>
    cases he : r.stopEvents u with
    | none =>
      rw [ht, he] at hc
      exact absurd hc (by simp)
    | some e =>
      rw [ht, he] at hc
      have hstop : stop_user r u =
          task_finally
            { r with stopEvents := Function.update r.stopEvents u (some ⟨e.id, true⟩) }
            u t.eventId := by
        simp [stop_user, he, ht]
      have h1 : (stop_user r u).tasks u = none := by
        simp [hstop, task_finally, Function.update_same]
      have h2 : (stop_user r u).stopEvents u = none := by
        simp [hstop, task_finally, Function.update_same, hc]
      refine ⟨h1, h2, by simp [live, h1], ?_, ?_⟩
      · simp [start_task_for_user, h1, Function.update_same]
      · simp [start_task_for_user, h1, live, Function.update_same]

/-- Witness for C2 at a concrete registry: tenant 7 has a live task with
stop event 2; stopping clears both entries and a subsequent start
registers the fresh task. -/
theorem claim_C2_stop_drains_witness :
    (stop_user
      { tasks := Function.update (fun _ => none) 7 (some ⟨1, 2, false⟩)
        stopEvents := Function.update (fun _ => none) 7 (some ⟨2, false⟩) } 7).tasks 7 =
      none ∧
    (stop_user
      { tasks := Function.update (fun _ => none) 7 (some ⟨1, 2, false⟩)
        stopEvents := Function.update (fun _ => none) 7 (some ⟨2, false⟩) } 7).stopEvents 7 =
      none ∧
    (start_task_for_user
      (stop_user
        { tasks := Function.update (fun _ => none) 7 (some ⟨1, 2, false⟩)
          stopEvents := Function.update (fun _ => none) 7 (some ⟨2, false⟩) } 7)
      7 9 10).tasks 7 = some ⟨9, 10, false⟩ := by
  have h := claim_C2_stop_drains
    { tasks := Function.update (fun _ => none) 7 (some ⟨1, 2, false⟩)
      stopEvents := Function.update (fun _ => none) 7 (some ⟨2, false⟩) } 7 9 10
    (by simp [registry_consistent, Function.update_same])
  exact ⟨h.1, h.2.1, h.2.2.2.1⟩

/-! ### Properties of the target-set toggle -/

/-- Counterexample to C10: the claim quantifies over every chat id, but
for chat id 5 absent from the target set and from `known_chats` the
`INSERT INTO auto_targets` violates the foreign key into `known_chats`
(`PRAGMA foreign_keys = ON`), so `toggle_target_chat` raises
`IntegrityError` instead of adding the chat and returning `True`. -/
theorem claim_C10_counterexample :
    toggle_target_chat ∅ ∅ 5 = Except.error "FOREIGN KEY constraint failed" ∧
    (5 : Int) ∉ (∅ : Finset Int) := ⟨rfl, by decide⟩

/-- C10 as amended: for a chat id present in `known_chats` (which every
row of `auto_targets` is, by the foreign key), `toggle_target_chat`
returns `false` and removes the chat id when it was present, returns
`true` and inserts it when it was absent, and toggling the same chat id
twice in succession returns the target set to its original value with the
opposite boolean; for a chat id absent from both the target set and
`known_chats`, the call raises `IntegrityError` and the target set is
unchanged. -/
theorem claim_C10_amended_toggle_requires_known (known targets : Finset Int) (c : Int) :
    (c ∈ targets →
      toggle_target_chat known targets c = Except.ok (targets.erase c, false)) ∧
    (c ∉ targets → c ∈ known →
      toggle_target_chat known targets c = Except.ok (insert c targets, true)) ∧
    (c ∉ targets → c ∉ known →
      toggle_target_chat known targets c = Except.error "FOREIGN KEY constraint failed") ∧
    (c ∈ known → ∀ t2 b, toggle_target_chat known targets c = Except.ok (t2, b) →
      (b = true ↔ c ∉ targets) ∧
      toggle_target_chat known t2 c = Except.ok (targets, !b)) := by
  by_cases h : c ∈ targets
  · refine ⟨fun _ => by simp [toggle_target_chat, h], fun hab _ => absurd h hab,
      fun hab _ => absurd h hab, fun hk t2 b heq => ?_⟩
    rw [toggle_target_chat, if_pos h] at heq
    obtain ⟨ht2, hb⟩ : targets.erase c = t2 ∧ false = b := by
      simpa using heq
    subst ht2
    subst hb
    simp [toggle_target_chat, Finset.not_mem_erase, hk, h, Finset.insert_erase h]
  · refine ⟨fun hmem => absurd hmem h, fun _ hk => by simp [toggle_target_chat, h, hk],
      fun _ hnk => by simp [toggle_target_chat, h, hnk], fun hk t2 b heq => ?_⟩
    rw [toggle_target_chat, if_neg h, if_pos hk] at heq
    obtain ⟨ht2, hb⟩ : insert c targets = t2 ∧ true = b := by
      simpa using heq
    subst ht2
    subst hb
    simp [toggle_target_chat, Finset.mem_insert_self, h, Finset.erase_insert h]

/-- Witness for the amended C10 at concrete inputs: with `known_chats`
containing 3 and 5 and target set `{5}`, toggling chat 3 inserts it and
returns `true`, and toggling chat 5 removes it and returns `false`. -/
theorem claim_C10_amended_toggle_requires_known_witness :
    toggle_target_chat {3, 5} {5} 3 = Except.ok (insert 3 {5}, true) ∧
    toggle_target_chat {3, 5} {5} 5 = Except.ok (Finset.erase {5} 5, false) :=
  ⟨(claim_C10_amended_toggle_requires_known {3, 5} {5} 3).2.1 (by decide) (by decide),
   (claim_C10_amended_toggle_requires_known {3, 5} {5} 5).1 (by decide)⟩

/-! ### Properties of the cycle body -/

/-- C4: when the campaign is enabled but ineligible at the start of a
cycle — payment check failing (tenant-level and system-wide must both
hold), message falsy, resolved destination list empty, or interval ≤ 0 —
the cycle performs exactly the write `enabled = false`, attempts zero
deliveries, and the loop terminates with that cycle. -/
theorem claim_C4_ineligible_disables
    (auto : AutoConfig) (pu pg hasUS : Bool) (personal : List Int)
    (deliver : Int → DeliverOutcome) (stopSet : Bool)
    (env : Nat → CycleOps) (k fuel : Nat)
    (henv : env k = pureOps auto pu pg hasUS personal deliver stopSet)
    (hen : auto.is_enabled = true)
    (hinel : ¬ (pu = true ∧ pg = true) ∨ strFalsy auto.message = true ∨
      resolve_targets hasUS personal auto.target_chat_ids = [] ∨
      auto.interval_minutes ≤ 0) :
    (run_user_cycle_exc (pureOps auto pu pg hasUS personal deliver stopSet) =
        Except.ok ([StoreWrite.setEnabled false], [], CycleExit.paymentFailed) ∧
      run_user_loop env (fuel + 1) k = LoopResult.exited k CycleExit.paymentFailed) ∨
    (run_user_cycle_exc (pureOps auto pu pg hasUS personal deliver stopSet) =
        Except.ok ([StoreWrite.setEnabled false], [], CycleExit.configInvalid) ∧
      run_user_loop env (fuel + 1) k = LoopResult.exited k CycleExit.configInvalid) := by
  by_cases hpay : pu = true ∧ pg = true
  · have hcfg : strFalsy auto.message = true ∨
        resolve_targets hasUS personal auto.target_chat_ids = [] ∨
        auto.interval_minutes ≤ 0 :=
      hinel.resolve_left (not_not_intro hpay)
    have hc := cycle_pure_configInvalid auto pu pg hasUS personal deliver stopSet
      hen hpay.1 hpay.2 hcfg
    exact Or.inr ⟨hc, by simp [run_user_loop, henv, hc, exitsLoop]⟩
  · have hc := cycle_pure_paymentFailed auto pu pg hasUS personal deliver stopSet hen hpay
    exact Or.inl ⟨hc, by simp [run_user_loop, henv, hc, exitsLoop]⟩

/-- Witness for C4 at a concrete campaign: enabled, interval 5, one
configured target, but the message is NULL — the cycle disables the
campaign with zero deliveries and the loop exits. -/
theorem claim_C4_ineligible_disables_witness :
    (run_user_cycle_exc
        (pureOps ⟨none, 5, [1], true⟩ true true false [] (fun _ => DeliverOutcome.success)
          false) =
        Except.ok ([StoreWrite.setEnabled false], [], CycleExit.paymentFailed) ∧
      run_user_loop
        (fun _ => pureOps ⟨none, 5, [1], true⟩ true true false []
          (fun _ => DeliverOutcome.success) false) 1 0 =
        LoopResult.exited 0 CycleExit.paymentFailed) ∨
    (run_user_cycle_exc
        (pureOps ⟨none, 5, [1], true⟩ true true false [] (fun _ => DeliverOutcome.success)
          false) =
        Except.ok ([StoreWrite.setEnabled false], [], CycleExit.configInvalid) ∧
      run_user_loop
        (fun _ => pureOps ⟨none, 5, [1], true⟩ true true false []
          (fun _ => DeliverOutcome.success) false) 1 0 =
        LoopResult.exited 0 CycleExit.configInvalid) :=
  claim_C4_ineligible_disables ⟨none, 5, [1], true⟩ true true false []
    (fun _ => DeliverOutcome.success) false
    (fun _ => pureOps ⟨none, 5, [1], true⟩ true true false []
      (fun _ => DeliverOutcome.success) false) 0 0 rfl rfl
    (Or.inr (Or.inl rfl))

/-- C6: an eligible cycle performs exactly one store write, the stats
update carrying this cycle's success count and ordered error list — no
matter how many destinations failed — and `Storage.update_stats` adds the
success count to the persisted total, stamps the last-cycle timestamp, and
sets the error summary to the newline-joined error list, or to NULL when
the list is empty. -/
theorem claim_C6_stats_persistence
    (auto : AutoConfig) (pu pg hasUS : Bool) (personal : List Int)
    (deliver : Int → DeliverOutcome) (stopSet : Bool)
    (hen : auto.is_enabled = true) (hpu : pu = true) (hpg : pg = true)
    (hmsg : strFalsy auto.message = false)
    (htg : resolve_targets hasUS personal auto.target_chat_ids ≠ [])
    (hint : 0 < auto.interval_minutes) :
    run_user_cycle_exc (pureOps auto pu pg hasUS personal deliver stopSet) =
      Except.ok
        ([StoreWrite.statsUpdate
            (fanout deliver (resolve_targets hasUS personal auto.target_chat_ids)).2.1
            (fanout deliver (resolve_targets hasUS personal auto.target_chat_ids)).2.2],
         (fanout deliver (resolve_targets hasUS personal auto.target_chat_ids)).1,
         CycleExit.ranAndWait
            (fanout deliver (resolve_targets hasUS personal auto.target_chat_ids)).2.1
            (fanout deliver (resolve_targets hasUS personal auto.target_chat_ids)).2.2
            stopSet) ∧
    (∀ (stats : AutoStats) (sent : Nat) (errors : List String) (now : String),
      (update_stats stats sent errors now).sent_total = stats.sent_total + (sent : Int) ∧
      (update_stats stats sent errors now).last_sent_at = some now ∧
      (errors = [] → (update_stats stats sent errors now).last_error = none) ∧
      (errors ≠ [] → (update_stats stats sent errors now).last_error =
        some (String.intercalate "\n" errors))) := by
  refine ⟨cycle_pure_ran auto pu pg hasUS personal deliver stopSet hen hpu hpg hmsg htg hint,
    fun stats sent errors now => ⟨rfl, rfl, fun he => ?_, fun he => ?_⟩⟩
  · simp [update_stats, he]
  · simp [update_stats, List.isEmpty_iff, he]

/-- Witness for C6 at a concrete eligible campaign with two destinations,
both succeeding: one stats write with success count 2 and no errors, and
the stats row updated accordingly. -/
theorem claim_C6_stats_persistence_witness :
    run_user_cycle_exc
      (pureOps ⟨some "Hello", 1, [10, 20], true⟩ true true false []
        (fun _ => DeliverOutcome.success) false) =
      Except.ok
        ([StoreWrite.statsUpdate
            (fanout (fun _ => DeliverOutcome.success)
              (resolve_targets false [] [10, 20])).2.1
            (fanout (fun _ => DeliverOutcome.success)
              (resolve_targets false [] [10, 20])).2.2],
         (fanout (fun _ => DeliverOutcome.success) (resolve_targets false [] [10, 20])).1,
         CycleExit.ranAndWait
            (fanout (fun _ => DeliverOutcome.success)
              (resolve_targets false [] [10, 20])).2.1
            (fanout (fun _ => DeliverOutcome.success)
              (resolve_targets false [] [10, 20])).2.2
            false) ∧
    (update_stats ⟨0, none, none⟩ 2 [] "2026-10-12T00:00:00").sent_total = 2 ∧
    (update_stats ⟨0, none, none⟩ 2 [] "2026-10-12T00:00:00").last_error = none := by
  have h := claim_C6_stats_persistence ⟨some "Hello", 1, [10, 20], true⟩ true true false []
    (fun _ => DeliverOutcome.success) false rfl rfl rfl rfl (by simp [resolve_targets])
    (by norm_num)
  exact ⟨h.1, by simpa using (h.2 ⟨0, none, none⟩ 2 [] "2026-10-12T00:00:00").1,
    (h.2 ⟨0, none, none⟩ 2 [] "2026-10-12T00:00:00").2.2.1 rfl⟩

lemma cycle_writes_cases (ops : CycleOps) :
    cycle_writes ops = [] ∨ cycle_writes ops = [StoreWrite.setEnabled false] ∨
    ∃ s es, cycle_writes ops = [StoreWrite.statsUpdate s es] := by
  rcases h1 : ops.get_auto with m | auto
  · exact Or.inl (by simp [cycle_writes, run_user_cycle_exc, h1, bind, Except.bind])
  · by_cases hen : auto.is_enabled = true
    · rcases h2 : ops.payUser with m | pu
      · exact Or.inl (by simp [cycle_writes, run_user_cycle_exc, h1, h2, hen,
          bind, Except.bind, pure, Except.pure])
      · rcases h3 : ops.payGlobal with m | pg
        · exact Or.inl (by simp [cycle_writes, run_user_cycle_exc, h1, h2, h3, hen,
            bind, Except.bind, pure, Except.pure])
        · cases pu
          · exact Or.inr (Or.inl (by simp [cycle_writes, run_user_cycle_exc, h1, h2, h3,
              hen, bind, Except.bind, pure, Except.pure]))
          · cases pg
            · exact Or.inr (Or.inl (by simp [cycle_writes, run_user_cycle_exc, h1, h2,
                h3, hen, bind, Except.bind, pure, Except.pure]))
            · rcases h4 : ops.resolveTargets with m | tg
              · exact Or.inl (by simp [cycle_writes, run_user_cycle_exc, h1, h2, h3, h4,
                  hen, bind, Except.bind, pure, Except.pure])
              · by_cases hcfg : strFalsy auto.message = true ∨ tg = [] ∨
                    auto.interval_minutes ≤ 0
                · refine Or.inr (Or.inl ?_)
                  simp [cycle_writes, run_user_cycle_exc, h1, h2, h3, h4, hen,
                    bind, Except.bind, pure, Except.pure, if_pos hcfg]
                · rcases h5 : ops.persistStats with m | u5
                  · exact Or.inl (by simp [cycle_writes, run_user_cycle_exc, h1, h2, h3,
                      h4, h5, hen, bind, Except.bind, pure, Except.pure, if_neg hcfg])
                  · refine Or.inr (Or.inr ⟨(fanout ops.deliver tg).2.1,
                      (fanout ops.deliver tg).2.2, ?_⟩)
                    simp [cycle_writes, run_user_cycle_exc, h1, h2, h3, h4, h5, hen,
                      bind, Except.bind, pure, Except.pure, if_neg hcfg]
    · exact Or.inl (by simp [cycle_writes, run_user_cycle_exc, h1, hen,
        bind, Except.bind, pure, Except.pure])

/-- C9: the scheduler core only ever disables a campaign. Every write that
the refresh operation, one pass of the running loop (in any environment,
including ones where store calls throw), or the store's constraint
enforcement makes to the enabled flag sets it to `false`. -/
theorem claim_C9_core_only_disables (auto : AutoConfig) (pu pg : Bool) (ops : CycleOps) :
    writesOnlyDisable (refresh_user auto pu pg).1 = true ∧
    writesOnlyDisable (cycle_writes ops) = true ∧
    writesOnlyDisable (ensure_constraints auto) = true := by
  have hec : writesOnlyDisable (ensure_constraints auto) = true := by
    unfold ensure_constraints
    split <;> simp [writesOnlyDisable]
  refine ⟨?_, ?_, hec⟩
  · cases hen : auto.is_enabled
    · simp [refresh_user, hen, writesOnlyDisable]
    · cases pu
      · simp [refresh_user, hen, writesOnlyDisable]
      · cases pg
        · simp [refresh_user, hen, writesOnlyDisable]
        · have h2 : (refresh_user auto true true).1 = ensure_constraints auto := by
            unfold refresh_user
            simp [hen]
            split <;> rfl
          rw [h2]
          exact hec
  · rcases cycle_writes_cases ops with h | h | ⟨s, es, h⟩ <;>
      simp [h, writesOnlyDisable]

/-! ### Exception propagation at the cycle boundary -/

/-- Counterexample to C5: the cycle body of `AutoSender._run_user` has no
exception handler at the cycle boundary (its `try` carries only a
`finally`), so when loading the config throws, the exception propagates
out of the cycle instead of being caught, logged, and turned into a cycle
failure with an empty success count. -/
theorem claim_C5_counterexample :
    run_user_cycle_exc
      { get_auto := Except.error "database unavailable"
        payUser := Except.ok true
        payGlobal := Except.ok true
        resolveTargets := Except.ok [1]
        persistStats := Except.ok ()
        deliver := fun _ => DeliverOutcome.success
        stopSet := false } = Except.error "database unavailable" := rfl

/-- C5 as amended: only per-destination delivery exceptions are caught
(inside the fan-out, so delivery failures never make the cycle itself
fail, whatever the sender does); an exception from loading config, the
payment checks, target resolution, or stats persistence is not caught at
the cycle boundary and propagates out of the loop, and the task's
`finally` block still clears the tenant's registry entry in either
case. -/
theorem claim_C5_amended_uncaught_propagation (ops : CycleOps)
    (auto : AutoConfig) (pu pg : Bool) (tg : List Int)
    (r : Registry) (u : Int) (eventId : Nat)
    (h1 : ops.get_auto = Except.ok auto) (h2 : ops.payUser = Except.ok pu)
    (h3 : ops.payGlobal = Except.ok pg) (h4 : ops.resolveTargets = Except.ok tg)
    (h5 : ops.persistStats = Except.ok ()) :
    exceptOk (run_user_cycle_exc ops) = true ∧
    (run_user_task_exc ops r u eventId).1.tasks u = none := by
  have hclean : (run_user_task_exc ops r u eventId).1.tasks u = none := by
    show (task_finally r u eventId).tasks u = none
    simp [task_finally, Function.update_same]
  refine ⟨?_, hclean⟩
  cases hen : auto.is_enabled
  · rw [cycle_eval_notEnabled ops auto h1 hen]
    rfl
  · cases pu
    · rw [cycle_eval_paymentFailed ops auto false pg h1 h2 h3 hen (by simp)]
      rfl
    · cases pg
      · rw [cycle_eval_paymentFailed ops auto true false h1 h2 h3 hen (by simp)]
        rfl
      · by_cases hcfg : strFalsy auto.message = true ∨ tg = [] ∨
            auto.interval_minutes ≤ 0
        · rw [cycle_eval_configInvalid ops auto tg h1 h2 h3 h4 hen hcfg]
          rfl
        · rw [cycle_eval_ran ops auto tg h1 h2 h3 h4 h5 hen hcfg]
          rfl

/-- Witness for the amended C5: a concrete environment where every store
call succeeds but every delivery fails still completes its cycle, and the
task cleanup clears the registry entry for tenant 1. -/
theorem claim_C5_amended_uncaught_propagation_witness :
    exceptOk (run_user_cycle_exc
      { get_auto := Except.ok ⟨some "hi", 1, [3], true⟩
        payUser := Except.ok true
        payGlobal := Except.ok true
        resolveTargets := Except.ok [3]
        persistStats := Except.ok ()
        deliver := fun _ => DeliverOutcome.transportError "flood wait"
        stopSet := false }) = true ∧
    (run_user_task_exc
      { get_auto := Except.ok ⟨some "hi", 1, [3], true⟩
        payUser := Except.ok true
        payGlobal := Except.ok true
        resolveTargets := Except.ok [3]
        persistStats := Except.ok ()
        deliver := fun _ => DeliverOutcome.transportError "flood wait"
        stopSet := false }
      { tasks := Function.update (fun _ => none) 1 (some ⟨1, 2, false⟩)
        stopEvents := Function.update (fun _ => none) 1 (some ⟨2, true⟩) }
      1 2).1.tasks 1 = none :=
  claim_C5_amended_uncaught_propagation _ ⟨some "hi", 1, [3], true⟩ true true [3]
    _ 1 2 rfl rfl rfl rfl rfl

/-! ### Retry behaviour of the delivery paths -/

/-- Counterexample to C7: through the user-session delivery path
(`UserSender.send_message`, which runs via `_run_with_reconnect` with
`_retry_attempts = 3`) a delivery whose first attempt raises
`ConnectionError` is retried within the same cycle: the underlying send is
invoked twice for one logical delivery, so it is not the case that each
destination receives exactly one delivery attempt through every delivery
path. -/
theorem claim_C7_counterexample :
    run_with_reconnect
      (fun a => if a = 1 then AttemptOutcome.connError "timeout" else AttemptOutcome.ok) =
      (2, RunResult.success) := rfl

/-- C7 as amended: within a cycle each resolved destination receives
exactly one logical delivery call (the fan-out visits each listed
destination once); through the bot path that is a single send, while the
user-session path invokes the underlying send up to 3 times, retrying
only on `ConnectionError` — when the first attempt does not raise
`ConnectionError`, exactly one invocation occurs. A destination whose
delivery is reported failed is retried only on the next scheduled
cycle. -/
theorem claim_C7_amended_reconnect_retries (f : Nat → AttemptOutcome)
    (deliver : Int → DeliverOutcome) (targets : List Int) :
    (run_with_reconnect f).1 ≤ 3 ∧
    ((∀ m, f 1 ≠ AttemptOutcome.connError m) → (run_with_reconnect f).1 = 1) ∧
    (fanout deliver targets).1 = targets := by
  have hgo : ∀ (l : List Nat) (lastExc : Option String) (invoked : Nat),
      (reconnectGo f lastExc invoked l).1 ≤ invoked + l.length := by
    intro l
    induction l with
    | nil => intro lastExc invoked; simp [reconnectGo]
    | cons a rest ih =>
      intro lastExc invoked
      cases hf : f a with
      | ok => simp [reconnectGo, hf]
      | otherError m => simp [reconnectGo, hf]
      | connError m =>
        by_cases hr : rest.isEmpty
        · simp [reconnectGo, hf, hr]
        · have := ih (some m) (invoked + 1)
          simp [reconnectGo, hf, hr]
          omega
  refine ⟨by simpa using hgo [1, 2, 3] none 0, fun h1 => ?_, by simp [fanout_eq]⟩
  cases hf : f 1 with
  | ok => simp [run_with_reconnect, reconnectGo, hf]
  | otherError m => simp [run_with_reconnect, reconnectGo, hf]
  | connError m => exact absurd hf (h1 m)

/-- Witness for the amended C7: with no connection errors the wrapped send
is invoked exactly once, and a fan-out over `[10]` attempts exactly
`[10]`. -/
theorem claim_C7_amended_reconnect_retries_witness :
    (run_with_reconnect (fun _ => AttemptOutcome.ok)).1 = 1 ∧
    (fanout (fun _ => DeliverOutcome.success) [10]).1 = [10] :=
  ⟨(claim_C7_amended_reconnect_retries (fun _ => AttemptOutcome.ok)
      (fun _ => DeliverOutcome.success) [10]).2.1 (fun m => by simp),
   (claim_C7_amended_reconnect_retries (fun _ => AttemptOutcome.ok)
      (fun _ => DeliverOutcome.success) [10]).2.2⟩

/-! ### Destination resolution -/

/-- Counterexample to C8: without a user-session sender
(`AutoSender._resolve_targets`, final line), the configured destination
list is returned as-is, with no filtering against reachable destinations:
with an empty reachable set and configured destination 5, the cycle still
delivers to 5, even though filtering the configured set against the
reachable set would leave nothing. -/
theorem claim_C8_counterexample :
    resolve_targets false [] [5] = [5] ∧
    ([5] : List Int).filter (fun c => ([] : List Int).contains c) = [] := ⟨rfl, rfl⟩

/-- C8 as amended: only in the user-session deployment mode is the
configured destination set filtered against the currently reachable
destinations before every cycle, with an empty configured set resolving to
all currently reachable destinations; in the bot deployment mode the
configured list is used unchanged, without reachability filtering. -/
theorem claim_C8_amended_mode_dependent_filtering (personal configured : List Int)
    (hne : configured ≠ []) :
    resolve_targets true personal configured =
      configured.filter (fun c => personal.contains c) ∧
    resolve_targets true personal [] = personal ∧
    resolve_targets false personal configured = configured := by
  simp [resolve_targets, hne]

/-- Witness for the amended C8: reachable chats `[1, 2]` and configured
chats `[2, 3]` resolve to `[2]` in user-session mode, and to `[2, 3]` in
bot mode. -/
theorem claim_C8_amended_mode_dependent_filtering_witness :
    resolve_targets true [1, 2] [2, 3] =
      ([2, 3] : List Int).filter (fun c => ([1, 2] : List Int).contains c) ∧
    resolve_targets true [1, 2] [] = [1, 2] ∧
    resolve_targets false [1, 2] [2, 3] = [2, 3] :=
  claim_C8_amended_mode_dependent_filtering [1, 2] [2, 3] (by simp)

end Sendistics
